import Mathlib

/-!
Shallow embedding of `src/lisa/target_script.py` (class `TargetScript`).

The Python class accumulates shell commands, serializes them into a script,
pushes the script to a remote devlib target, and runs/backgrounds/waits/kills
it there.  The remote target is an external collaborator consumed through a
narrow interface; it is embedded as a record of functions (`Target`).  Python
exceptions are embedded as an `Option PyError` component of each method's
result, carrying the state at raise time (Python mutations performed before a
raise persist, so each method returns the post state in both branches).
Observable calls on the collaborator and on the local filesystem are recorded
as an explicit `Effect` list.
-/

namespace Lisa

/-- A value read off the remote target (device property pass-through). -/
inductive Value
  | str : String → Value
  | int : Int → Value
  deriving DecidableEq

/-- Handle for a background process (`subprocess.Popen` in the source).
`completed_after` is the number of `poll()` calls that return `None` before
the process reports completion with `exit_code`; a genuine `Popen` object is
always truthy, which the embedding reflects by wrapping the handle in
`Option` at the use site. -/
structure Proc where
  completed_after : Nat
  exit_code : Int
  deriving DecidableEq

/-- The remote-target collaborator (`devlib.target.Target`), embedded as the
narrow interface `TargetScript` consumes: `busybox`, `file_exists`,
`install`, `execute`, `background`, `check_responsive` (abstracted as the
boolean `responsive`), `kill` (recorded as an effect), and the pass-through
device properties (`attr`).  Fallible collaborator operations return
`Except` with a message. -/
structure Target where
  busybox : String
  file_exists : String → Bool
  install : String → Except String String
  execute : String → Bool → Option Nat → Except String Unit
  background : String → Bool → Proc
  responsive : Bool
  attr : String → Value

/-- The exceptions raised by `target_script.py`, by kind and message:
`fileNotFound` is `FileNotFoundError` (the MissingRemoteArtifact error),
`runtimeError` is `RuntimeError` (the NoBackgroundProcess error),
`targetNotResponding` is the error `check_responsive(explode=True)` raises,
`deploymentFailure` propagates a failed `target.install`, and
`executionFailure` propagates a failed `target.execute`. -/
inductive PyError
  | fileNotFound (msg : String)
  | runtimeError (msg : String)
  | targetNotResponding
  | deploymentFailure (msg : String)
  | executionFailure (msg : String)
  deriving DecidableEq

/-- Observable calls made by a method: the local file write performed by
`push`, and the collaborator calls `install`, `execute`, `background` and
`kill`, plus the local handle termination `self._proc.kill()`. -/
inductive Effect
  | writeLocal (path content : String)
  | installCall (localPath : String)
  | remoteExecute (path : String) (as_root : Bool) (timeout : Option Nat)
  | remoteBackground (path : String) (as_root : Bool)
  | remoteKill (matchExpr : String) (as_root : Bool)
  | procKill
  deriving DecidableEq

/-- Python `s.startswith(pre)`: `pre` is a character-wise prefix of `s`. -/
def str_startswith (s pre : String) : Bool :=
  pre.data.isPrefixOf s.data

/-- Python `s.endswith(post)`: `post` is a character-wise suffix of `s`. -/
def str_endswith (s post : String) : Bool :=
  post.data.isSuffixOf s.data

/-- `os.path.join(a, b)` for two POSIX components, as used at line 49 of the
source (CPython's `posixpath.join`): an absolute second component discards
the first, otherwise the parts are joined with exactly one separator. -/
def os_path_join (a b : String) : String :=
  if str_startswith b "/" then b
  else if a = "" || str_endswith a "/" then a ++ b
  else a ++ "/" ++ b

/-- The in-memory state of a `TargetScript` instance: the fields assigned in
`__init__` (lines 45-54 of the source). -/
structure TargetScript where
  target : Target
  script_name : String
  local_path : String
  remote_path : String
  commands : List String
  _proc : Option Proc

/-- `TargetScript.__init__` (lines 45-54): stores the target and script name,
computes `local_path = os.path.join(local_dir, script_name)`, and starts with
an empty `remote_path`, no commands and no background process.  The Python
defaults are `script_name='remote_script.sh'`, `local_dir='./'`. -/
def TargetScript.__init__ (target : Target) (script_name local_dir : String) :
    TargetScript :=
  { target := target
    script_name := script_name
    local_path := os_path_join local_dir script_name
    remote_path := ""
    commands := []
    _proc := none }

/-- `TargetScript.append` (lines 67-74): append a command string to the
script. -/
def TargetScript.append (s : TargetScript) (cmd : String) : TargetScript :=
  { s with commands := s.commands ++ [cmd] }

/-- `TargetScript.execute` (lines 56-65): accumulate a command for later
execution; the body is exactly `self.append(cmd)`. -/
def TargetScript.execute (s : TargetScript) (cmd : String) : TargetScript :=
  s.append cmd

/-- The class attribute `_target_attrs` (line 43). -/
def TargetScript._target_attrs : List String :=
  ["screen_resolution", "android_id", "abi", "os_version", "model"]

/-- `TargetScript.__getattr__` (lines 82-88).  Python invokes `__getattr__`
only after normal attribute lookup has failed; for a non-dunder name on the
allow-list the read is forwarded to the real target, otherwise
`super().__getattribute__(name)` runs the failed default lookup again and
hence raises `AttributeError`. -/
def TargetScript.__getattr__ (s : TargetScript) (name : String) :
    Except String Value :=
  if !(str_startswith name "__" && str_endswith name "__")
      && TargetScript._target_attrs.contains name then
    Except.ok (s.target.attr name)
  else
    Except.error ("AttributeError: " ++ name)

/-- Python attribute read `getattr(obj, name)` on a `TargetScript` instance:
`normal` abstracts the default instance/class lookup; when it fails,
`__getattr__` is consulted. -/
def pyGetattr (s : TargetScript) (normal : String → Option Value)
    (name : String) : Except String Value :=
  match normal name with
  | some v => Except.ok v
  | none => s.__getattr__ name

/-- `TargetScript.push` (lines 90-106): build the script text (shebang from
`target.busybox`, `set -e`, the commands, `set +e`, newline-joined), write it
to `local_path`, then `install` it on the target and store the reported
remote path.  The local write happens in both branches; `remote_path` is
assigned only after `install` returns. -/
def TargetScript.push (s : TargetScript) :
    TargetScript × List Effect × Option PyError :=
  let actions := ["set -e"] ++ s.commands ++ ["set +e"]
  let actions := ["#!" ++ s.target.busybox ++ " sh"] ++ actions
  let actions := String.intercalate "\n" actions
  match s.target.install s.local_path with
  | Except.ok rp =>
      ({ s with remote_path := rp },
       [Effect.writeLocal s.local_path actions, Effect.installCall s.local_path],
       none)
  | Except.error e =>
      (s,
       [Effect.writeLocal s.local_path actions, Effect.installCall s.local_path],
       some (PyError.deploymentFailure e))

/-- `TargetScript._prerun_check` (lines 108-110): raise `FileNotFoundError`
when the remote script does not exist on the target. -/
def TargetScript._prerun_check (s : TargetScript) : Option PyError :=
  if !(s.target.file_exists s.remote_path) then
    some (PyError.fileNotFound "Remote script was not found on target device")
  else
    none

/-- `TargetScript.run` (lines 112-125): prerun check, then blocking remote
execution of the pushed script. -/
def TargetScript.run (s : TargetScript) (as_root : Bool) (timeout : Option Nat) :
    TargetScript × List Effect × Option PyError :=
  match s._prerun_check with
  | some e => (s, [], some e)
  | none =>
      match s.target.execute s.remote_path as_root timeout with
      | Except.ok _ =>
          (s, [Effect.remoteExecute s.remote_path as_root timeout], none)
      | Except.error e =>
          (s, [Effect.remoteExecute s.remote_path as_root timeout],
           some (PyError.executionFailure e))

/-- `TargetScript.background` (lines 127-148): prerun check, then start the
script in the background on the target and store the handle in `_proc`. -/
def TargetScript.background (s : TargetScript) (as_root : Bool) :
    TargetScript × List Effect × Option PyError :=
  match s._prerun_check with
  | some e => (s, [], some e)
  | none =>
      ({ s with _proc := some (s.target.background s.remote_path as_root) },
       [Effect.remoteBackground s.remote_path as_root],
       none)

/-- The polling loop of `wait` (lines 162-164): while `poll()` is `None`,
`check_responsive(explode=True)` raises if the target is unresponsive, then
sleep and poll again.  The fuel is the handle's `completed_after`. -/
def waitLoop (responsive : Bool) : Nat → Option PyError
  | 0 => none
  | n + 1 =>
      if responsive then waitLoop responsive n
      else some PyError.targetNotResponding

/-- `TargetScript.wait` (lines 150-164): raise `RuntimeError` when no
background process is tracked, otherwise poll until completion.  Note that
`wait` does not reset `_proc`. -/
def TargetScript.wait (s : TargetScript) : TargetScript × Option PyError :=
  match s._proc with
  | none => (s, some (PyError.runtimeError "No background process currently executing"))
  | some p => (s, waitLoop s.target.responsive p.completed_after)

/-- `TargetScript.kill` (lines 166-178): raise `RuntimeError` when no
background process is tracked, otherwise call `target.kill` on the match
expression `'$(pgrep -x {script_name})'` and then `self._proc.kill()`.  Note
that `kill` does not reset `_proc`. -/
def TargetScript.kill (s : TargetScript) (as_root : Bool) :
    TargetScript × List Effect × Option PyError :=
  match s._proc with
  | none => (s, [], some (PyError.runtimeError "No background process currently executing"))
  | some _ =>
      let cmd_pid := "$(pgrep -x " ++ s.script_name ++ ")"
      (s, [Effect.remoteKill cmd_pid as_root, Effect.procKill], none)

/-- A call on the public interface of `TargetScript`, with its arguments. -/
inductive Op
  | append (cmd : String)
  | execute (cmd : String)
  | push
  | run (as_root : Bool) (timeout : Option Nat)
  | background (as_root : Bool)
  | wait
  | kill (as_root : Bool)
  deriving DecidableEq

/-- One method call: the resulting state and the exception it raised, if
any.  A raised exception leaves the already-performed mutations in place,
exactly as in Python. -/
def stepOp (s : TargetScript) : Op → TargetScript × Option PyError
  | Op.append cmd => (s.append cmd, none)
  | Op.execute cmd => (TargetScript.execute s cmd, none)
  | Op.push => ((s.push).1, (s.push).2.2)
  | Op.run ar t => ((s.run ar t).1, (s.run ar t).2.2)
  | Op.background ar => ((s.background ar).1, (s.background ar).2.2)
  | Op.wait => s.wait
  | Op.kill ar => ((s.kill ar).1, (s.kill ar).2.2)

/-- Run a sequence of method calls, threading the state; the caller is
assumed to catch exceptions and continue. -/
def runOps (s : TargetScript) : List Op → TargetScript
  | [] => s
  | op :: rest => runOps (stepOp s op).1 rest

/-- Append a whole list of commands via `append`. -/
def appendAll (s : TargetScript) (cmds : List String) : TargetScript :=
  cmds.foldl TargetScript.append s

/-- Does the op syntactically denote a `push` call? -/
def Op.isPush : Op → Bool
  | Op.push => true
  | _ => false

/-- Does the op syntactically denote a `background` call? -/
def Op.isBackground : Op → Bool
  | Op.background _ => true
  | _ => false

/-- Is the effect a `target.kill` call? -/
def Effect.isRemoteKill : Effect → Bool
  | Effect.remoteKill _ _ => true
  | _ => false

/-- `true` when no `push` call in the sequence completed successfully when
run from `s`. -/
def noSuccessfulPush (s : TargetScript) : List Op → Bool
  | [] => true
  | op :: rest =>
      (!op.isPush || ((stepOp s op).2).isSome)
        && noSuccessfulPush (stepOp s op).1 rest

/-! ### Shape lemmas about the individual methods -/

/-- `run` never mutates the in-memory state. -/
theorem run_fst (s : TargetScript) (ar : Bool) (t : Option Nat) :
    (s.run ar t).1 = s := by
  unfold TargetScript.run
  cases s._prerun_check with
  | some e => rfl
  | none =>
      cases s.target.execute s.remote_path ar t with
      | ok u => rfl
      | error e => rfl

/-- `wait` never mutates the in-memory state. -/
theorem wait_fst (s : TargetScript) : (s.wait).1 = s := by
  unfold TargetScript.wait
  cases s._proc with
  | none => rfl
  | some p => rfl

/-- `kill` never mutates the in-memory state; in particular it does not
reset `_proc`. -/
theorem kill_fst (s : TargetScript) (ar : Bool) : (s.kill ar).1 = s := by
  unfold TargetScript.kill
  cases s._proc with
  | none => rfl
  | some p => rfl

/-- When the remote install fails, `push` leaves the state untouched. -/
theorem push_fst_of_error (s : TargetScript) (e : String)
    (h : s.target.install s.local_path = Except.error e) : (s.push).1 = s := by
  unfold TargetScript.push
  rw [h]

/-- When the remote install succeeds, `push` only updates `remote_path`. -/
theorem push_fst_of_ok (s : TargetScript) (rp : String)
    (h : s.target.install s.local_path = Except.ok rp) :
    (s.push).1 = { s with remote_path := rp } := by
  unfold TargetScript.push
  rw [h]

/-- A failed install is reported as a `deploymentFailure`. -/
theorem push_snd_of_error (s : TargetScript) (e : String)
    (h : s.target.install s.local_path = Except.error e) :
    (s.push).2.2 = some (PyError.deploymentFailure e) := by
  unfold TargetScript.push
  rw [h]

/-- A successful install makes `push` raise nothing. -/
theorem push_snd_of_ok (s : TargetScript) (rp : String)
    (h : s.target.install s.local_path = Except.ok rp) :
    (s.push).2.2 = none := by
  unfold TargetScript.push
  rw [h]

/-- `push` always writes the serialized script to `local_path` and then
calls `install` on it, whether or not the install succeeds. -/
theorem push_effects (s : TargetScript) :
    (s.push).2.1 =
      [Effect.writeLocal s.local_path
         (String.intercalate "\n"
           (["#!" ++ s.target.busybox ++ " sh", "set -e"]
             ++ s.commands ++ ["set +e"])),
       Effect.installCall s.local_path] := by
  unfold TargetScript.push
  cases h : s.target.install s.local_path with
  | ok rp => rfl
  | error e => rfl

/-- `appendAll` only extends `commands`, in order. -/
theorem appendAll_eq (s : TargetScript) (cmds : List String) :
    appendAll s cmds = { s with commands := s.commands ++ cmds } := by
  induction cmds generalizing s with
  | nil => simp [appendAll]
  | cons c cs ih =>
      have h1 : appendAll s (c :: cs) = appendAll (s.append c) cs := rfl
      rw [h1, ih]
      simp [TargetScript.append]

/-- The polling loop never raises the NoBackgroundProcess `RuntimeError`. -/
theorem waitLoop_ne_runtimeError (r : Bool) (n : Nat) (m : String) :
    waitLoop r n ≠ some (PyError.runtimeError m) := by
  induction n with
  | zero => simp [waitLoop]
  | succ k ih => cases r <;> simp [waitLoop, ih]

/-! ### Invariants along sequences of method calls -/

/-- No method ever replaces the stored `target` reference. -/
theorem stepOp_target (s : TargetScript) (op : Op) :
    ((stepOp s op).1).target = s.target := by
  cases op with
  | append cmd => rfl
  | execute cmd => rfl
  | push =>
      show ((s.push).1).target = s.target
      cases h : s.target.install s.local_path with
      | ok rp => rw [push_fst_of_ok s rp h]
      | error e => rw [push_fst_of_error s e h]
  | run ar t => show ((s.run ar t).1).target = s.target; rw [run_fst]
  | background ar =>
      show ((s.background ar).1).target = s.target
      unfold TargetScript.background
      cases s._prerun_check with
      | some e => rfl
      | none => rfl
  | wait => show ((s.wait).1).target = s.target; rw [wait_fst]
  | kill ar => show ((s.kill ar).1).target = s.target; rw [kill_fst]

/-- The stored `target` is fixed for the object's lifetime. -/
theorem runOps_target (s : TargetScript) (ops : List Op) :
    (runOps s ops).target = s.target := by
  induction ops generalizing s with
  | nil => rfl
  | cons op rest ih => rw [runOps, ih, stepOp_target]

/-- A call that is not a successful `push` leaves `remote_path` alone. -/
theorem stepOp_remote_path (s : TargetScript) (op : Op)
    (h : op.isPush = true → ((stepOp s op).2).isSome = true) :
    ((stepOp s op).1).remote_path = s.remote_path := by
  cases op with
  | append cmd => rfl
  | execute cmd => rfl
  | push =>
      have hs : ((s.push).2.2).isSome = true := h rfl
      show ((s.push).1).remote_path = s.remote_path
      cases hi : s.target.install s.local_path with
      | ok rp => rw [push_snd_of_ok s rp hi] at hs; simp at hs
      | error e => rw [push_fst_of_error s e hi]
  | run ar t => show ((s.run ar t).1).remote_path = s.remote_path; rw [run_fst]
  | background ar =>
      show ((s.background ar).1).remote_path = s.remote_path
      unfold TargetScript.background
      cases s._prerun_check with
      | some e => rfl
      | none => rfl
  | wait => show ((s.wait).1).remote_path = s.remote_path; rw [wait_fst]
  | kill ar => show ((s.kill ar).1).remote_path = s.remote_path; rw [kill_fst]

/-- As long as no `push` call has completed successfully, `remote_path`
keeps its initial empty value. -/
theorem runOps_remote_path_empty (s : TargetScript) (ops : List Op)
    (h : noSuccessfulPush s ops = true) (h0 : s.remote_path = "") :
    (runOps s ops).remote_path = "" := by
  induction ops generalizing s with
  | nil => exact h0
  | cons op rest ih =>
      simp only [noSuccessfulPush, Bool.and_eq_true, Bool.or_eq_true,
        Bool.not_eq_true'] at h
      refine ih _ h.2 ?_
      rw [stepOp_remote_path]
      · exact h0
      · intro hp
        rcases h.1 with h1 | h1
        · rw [hp] at h1; exact absurd h1 (by simp)
        · exact h1

/-- A call that is not a `background` call leaves `_proc` alone. -/
theorem stepOp_proc (s : TargetScript) (op : Op)
    (h : op.isBackground = false) : ((stepOp s op).1)._proc = s._proc := by
  cases op with
  | append cmd => rfl
  | execute cmd => rfl
  | push =>
      show ((s.push).1)._proc = s._proc
      cases hi : s.target.install s.local_path with
      | ok rp => rw [push_fst_of_ok s rp hi]
      | error e => rw [push_fst_of_error s e hi]
  | run ar t => show ((s.run ar t).1)._proc = s._proc; rw [run_fst]
  | background ar => simp [Op.isBackground] at h
  | wait => show ((s.wait).1)._proc = s._proc; rw [wait_fst]
  | kill ar => show ((s.kill ar).1)._proc = s._proc; rw [kill_fst]

/-- Before the first `background` call, no background process is tracked. -/
theorem runOps_proc_none (s : TargetScript) (ops : List Op)
    (h : ops.all (fun op => !op.isBackground) = true) (h0 : s._proc = none) :
    (runOps s ops)._proc = none := by
  induction ops generalizing s with
  | nil => exact h0
  | cons op rest ih =>
      rw [List.all_cons, Bool.and_eq_true] at h
      refine ih _ h.2 ?_
      rw [stepOp_proc]
      · exact h0
      · have := h.1
        simpa using this

/-- No method ever resets a tracked background handle back to `none`. -/
theorem stepOp_proc_isSome (s : TargetScript) (op : Op)
    (h : s._proc.isSome = true) : ((stepOp s op).1)._proc.isSome = true := by
  by_cases hb : op.isBackground = true
  · cases op with
    | background ar =>
        show ((s.background ar).1)._proc.isSome = true
        unfold TargetScript.background
        cases s._prerun_check with
        | some e => exact h
        | none => rfl
    | append cmd => simp [Op.isBackground] at hb
    | execute cmd => simp [Op.isBackground] at hb
    | push => simp [Op.isBackground] at hb
    | run ar t => simp [Op.isBackground] at hb
    | wait => simp [Op.isBackground] at hb
    | kill ar => simp [Op.isBackground] at hb
  · rw [stepOp_proc s op (by simpa using hb)]
    exact h

/-- None of the names on the `_target_attrs` allow-list is a dunder name. -/
theorem target_attrs_not_dunder (name : String)
    (h : TargetScript._target_attrs.contains name = true) :
    (str_startswith name "__" && str_endswith name "__") = false := by
  have hmem : name ∈ TargetScript._target_attrs := by
    simpa using h
  simp only [TargetScript._target_attrs, List.mem_cons, List.not_mem_nil,
    or_false] at hmem
  rcases hmem with h1 | h1 | h1 | h1 | h1 <;> subst h1 <;> decide

/-! ### Concrete stub collaborators, for evaluating the theorems -/

/-- A well-behaved stub remote target: installs always succeed and the
installed file exists. -/
def stubTarget : Target :=
  { busybox := "/bin/busybox"
    file_exists := fun _ => true
    install := fun _ => Except.ok "/data/local/tmp/bin/remote_script.sh"
    execute := fun _ _ _ => Except.ok ()
    background := fun _ _ => { completed_after := 0, exit_code := 0 }
    responsive := true
    attr := fun _ => Value.str "stub-value" }

/-- A broken stub remote target: uploads fail and no file exists. -/
def failTarget : Target :=
  { busybox := "/bin/sh"
    file_exists := fun _ => false
    install := fun _ => Except.error "upload failed"
    execute := fun _ _ _ => Except.ok ()
    background := fun _ _ => { completed_after := 1, exit_code := 1 }
    responsive := false
    attr := fun _ => Value.int 0 }

/-- A freshly constructed script over the well-behaved stub. -/
def stubInit : TargetScript :=
  TargetScript.__init__ stubTarget "remote_script.sh" "./"

/-- The well-behaved stub script after a successful `push` and a successful
`background` call: a background process is tracked. -/
def stubAfterBackground : TargetScript :=
  (((stubInit.push).1).background false).1

/-- A freshly constructed script over the broken stub. -/
def failInit : TargetScript :=
  TargetScript.__init__ failTarget "remote_script.sh" "./"

/-- With a tracked background process, `kill` raises nothing. -/
theorem kill_snd_of_some (s : TargetScript) (ar : Bool) (p : Proc)
    (hp : s._proc = some p) : (s.kill ar).2.2 = none := by
  unfold TargetScript.kill
  rw [hp]

/-! ### The claims -/

/-- Claim C1: for every sequence of commands appended via `append` (in any
state), a subsequent `push` writes to the local path exactly the text
obtained by newline-joining: a shebang line referencing the remote target's
shell interpreter, the line `set -e`, every accumulated command in the order
appended (each on its own line, none dropped or reordered), and the line
`set +e`. -/
theorem C1_push_serializes_appends_in_order (s : TargetScript)
    (cmds : List String) :
    ((appendAll s cmds).push).2.1 =
      [Effect.writeLocal s.local_path
         (String.intercalate "\n"
           (["#!" ++ s.target.busybox ++ " sh", "set -e"]
             ++ (s.commands ++ cmds) ++ ["set +e"])),
       Effect.installCall s.local_path] := by
  rw [appendAll_eq, push_effects]

/-- Claim C7: when a background process is tracked, `kill` issues exactly
one remote termination call, whose process-match expression is an
exact-name match (`pgrep -x`) on the script's name, and also terminates the
local handle; both termination paths are attempted and no error is
raised. -/
theorem C7_kill_terminates_by_script_name (s : TargetScript) (p : Proc)
    (ar : Bool) (h : s._proc = some p) :
    (s.kill ar).2.1 =
      [Effect.remoteKill ("$(pgrep -x " ++ s.script_name ++ ")") ar,
       Effect.procKill] ∧
    ((s.kill ar).2.1).countP Effect.isRemoteKill = 1 ∧
    (s.kill ar).2.2 = none := by
  have hk : s.kill ar =
      (s, [Effect.remoteKill ("$(pgrep -x " ++ s.script_name ++ ")") ar,
           Effect.procKill], none) := by
    unfold TargetScript.kill
    rw [h]
  rw [hk]
  refine ⟨rfl, ?_, rfl⟩
  simp [List.countP_cons, Effect.isRemoteKill]

/-- Witness for C7: on the stub script with a tracked background process,
`kill` records exactly the remote `pgrep -x`-based termination and the
local handle termination. -/
theorem C7_witness :
    stubAfterBackground._proc = some { completed_after := 0, exit_code := 0 } ∧
    ((stubAfterBackground.kill false).2.1 =
      [Effect.remoteKill "$(pgrep -x remote_script.sh)" false,
       Effect.procKill] ∧
     ((stubAfterBackground.kill false).2.1).countP Effect.isRemoteKill = 1 ∧
     (stubAfterBackground.kill false).2.2 = none) :=
  ⟨rfl, C7_kill_terminates_by_script_name stubAfterBackground
    { completed_after := 0, exit_code := 0 } false rfl⟩

/-- Claim C8: calling `push` twice with the identical accumulated command
sequence (and the same remote target) writes byte-identical local script
content both times. -/
theorem C8_push_content_idempotent (s : TargetScript) :
    (((s.push).1).push).2.1 = (s.push).2.1 := by
  rw [push_effects, push_effects]
  cases h : s.target.install s.local_path with
  | ok rp => rw [push_fst_of_ok s rp h]
  | error e => rw [push_fst_of_error s e h]

/-- Claim C9: `execute cmd` produces exactly the same state change as
`append cmd`: both append `cmd` at the end of the command sequence and
change nothing else, so `execute` is an exact alias of `append`. -/
theorem C9_execute_is_append (s : TargetScript) (cmd : String) :
    TargetScript.execute s cmd = s.append cmd ∧
    (s.append cmd).commands = s.commands ++ [cmd] ∧
    (s.append cmd).target = s.target ∧
    (s.append cmd).script_name = s.script_name ∧
    (s.append cmd).local_path = s.local_path ∧
    (s.append cmd).remote_path = s.remote_path ∧
    (s.append cmd)._proc = s._proc :=
  ⟨rfl, rfl, rfl, rfl, rfl, rfl, rfl⟩

/-- Claim C10: if the remote install step of `push` fails (after the local
file write), `remote_path` retains its prior value and `commands` is
unchanged: `push` is atomic with respect to in-memory state on deployment
failure, and the local write still happened. -/
theorem C10_push_atomic_on_deploy_failure (s : TargetScript) (msg : String)
    (h : s.target.install s.local_path = Except.error msg) :
    (s.push).1 = s ∧
    (s.push).1.remote_path = s.remote_path ∧
    (s.push).1.commands = s.commands ∧
    (s.push).2.2 = some (PyError.deploymentFailure msg) ∧
    (s.push).2.1 =
      [Effect.writeLocal s.local_path
         (String.intercalate "\n"
           (["#!" ++ s.target.busybox ++ " sh", "set -e"]
             ++ s.commands ++ ["set +e"])),
       Effect.installCall s.local_path] := by
  refine ⟨push_fst_of_error s msg h, ?_, ?_,
    push_snd_of_error s msg h, push_effects s⟩
  · rw [push_fst_of_error s msg h]
  · rw [push_fst_of_error s msg h]

/-- Witness for C10: on the broken stub, `push` fails the deploy step yet
leaves `remote_path` and `commands` untouched, after writing locally. -/
theorem C10_witness :
    failInit.target.install failInit.local_path = Except.error "upload failed" ∧
    ((failInit.push).1 = failInit ∧
     (failInit.push).1.remote_path = failInit.remote_path ∧
     (failInit.push).1.commands = failInit.commands ∧
     (failInit.push).2.2 = some (PyError.deploymentFailure "upload failed") ∧
     (failInit.push).2.1 =
       [Effect.writeLocal failInit.local_path
          (String.intercalate "\n"
            (["#!" ++ failInit.target.busybox ++ " sh", "set -e"]
              ++ failInit.commands ++ ["set +e"])),
        Effect.installCall failInit.local_path]) :=
  ⟨rfl, C10_push_atomic_on_deploy_failure failInit "upload failed" rfl⟩

/-- Claim C2 counterexample: on the stub script with a tracked background
process, `kill` succeeds but does NOT clear the tracked handle, and a
subsequent `wait` (or `kill`) does not fail with the NoBackgroundProcess
`RuntimeError` — `wait` returns normally and the second `kill` raises
nothing, contradicting the claim that the handle is cleared. -/
theorem C2_counterexample :
    (stubAfterBackground.kill false).2.2 = none ∧
    ((stubAfterBackground.kill false).1)._proc =
      some { completed_after := 0, exit_code := 0 } ∧
    ((stubAfterBackground.kill false).1)._proc ≠ none ∧
    (((stubAfterBackground.kill false).1).wait).2 = none ∧
    (((stubAfterBackground.kill false).1).kill false).2.2 = none :=
  ⟨rfl, rfl, by decide, rfl, rfl⟩

/-- Claim C2 (amended): `kill` does not clear the tracked background
handle.  Whenever a handle is tracked (as after a successful
`background()`), `kill` succeeds, leaves `_proc` unchanged, and a
subsequent `wait` or `kill` does not fail with the NoBackgroundProcess
`RuntimeError`; moreover no operation ever resets a tracked handle to
`none`, so the handle is non-null from the first successful `background()`
for the rest of the object's lifetime. -/
theorem C2_amended_kill_preserves_handle (s : TargetScript) (ar : Bool)
    (h : s._proc.isSome = true) :
    (s.kill ar).2.2 = none ∧
    ((s.kill ar).1)._proc = s._proc ∧
    (((s.kill ar).1).wait).2 ≠
      some (PyError.runtimeError "No background process currently executing") ∧
    (((s.kill ar).1).kill ar).2.2 = none ∧
    (∀ op : Op, ((stepOp s op).1)._proc.isSome = true) := by
  cases hp : s._proc with
  | none => rw [hp] at h; simp at h
  | some p =>
      refine ⟨kill_snd_of_some s ar p hp, ?_, ?_, ?_, ?_⟩
      · rw [kill_fst]
        exact hp
      · rw [kill_fst]
        unfold TargetScript.wait
        rw [hp]
        exact waitLoop_ne_runtimeError s.target.responsive p.completed_after _
      · rw [kill_fst]
        exact kill_snd_of_some s ar p hp
      · intro op
        exact stepOp_proc_isSome s op (by rw [hp]; rfl)

/-- Witness for the amended C2, at the stub script with a tracked
background process. -/
theorem C2_witness :
    stubAfterBackground._proc.isSome = true ∧
    (stubAfterBackground.kill false).2.2 = none ∧
    ((stubAfterBackground.kill false).1)._proc = stubAfterBackground._proc ∧
    (((stubAfterBackground.kill false).1).wait).2 ≠
      some (PyError.runtimeError "No background process currently executing") ∧
    (((stubAfterBackground.kill false).1).kill false).2.2 = none ∧
    ((stepOp stubAfterBackground Op.wait).1)._proc.isSome = true := by
  have H := C2_amended_kill_preserves_handle stubAfterBackground false rfl
  exact ⟨rfl, H.1, H.2.1, H.2.2.1, H.2.2.2.1, H.2.2.2.2 Op.wait⟩

/-- Claim C3: on every `TargetScript` on which `push` has never completed
successfully, `run` and `background` always fail with the
MissingRemoteArtifact `FileNotFoundError`, because the empty remote path
does not exist on the target. -/
theorem C3_run_background_require_successful_push (t : Target)
    (name dir : String) (ops : List Op)
    (hops : noSuccessfulPush (TargetScript.__init__ t name dir) ops = true)
    (hempty : t.file_exists "" = false) (ar : Bool) (timeout : Option Nat) :
    ((runOps (TargetScript.__init__ t name dir) ops).run ar timeout).2.2 =
      some (PyError.fileNotFound "Remote script was not found on target device") ∧
    ((runOps (TargetScript.__init__ t name dir) ops).background ar).2.2 =
      some (PyError.fileNotFound "Remote script was not found on target device") := by
  have hrp : (runOps (TargetScript.__init__ t name dir) ops).remote_path = "" :=
    runOps_remote_path_empty _ _ hops rfl
  have ht : (runOps (TargetScript.__init__ t name dir) ops).target = t :=
    runOps_target _ _
  have hpre : (runOps (TargetScript.__init__ t name dir) ops)._prerun_check =
      some (PyError.fileNotFound "Remote script was not found on target device") := by
    unfold TargetScript._prerun_check
    rw [hrp, ht, hempty]
    rfl
  constructor
  · unfold TargetScript.run
    rw [hpre]
  · unfold TargetScript.background
    rw [hpre]

/-- Witness for C3: on the broken stub, after an `append`, a failed `push`
and a failed `run`, both `run` and `background` still fail with the
MissingRemoteArtifact error. -/
theorem C3_witness :
    noSuccessfulPush failInit [Op.append "echo hi", Op.push, Op.run false none] = true ∧
    failTarget.file_exists "" = false ∧
    (((runOps failInit [Op.append "echo hi", Op.push, Op.run false none]).run
        false none).2.2 =
      some (PyError.fileNotFound "Remote script was not found on target device") ∧
     ((runOps failInit [Op.append "echo hi", Op.push, Op.run false none]).background
        false).2.2 =
      some (PyError.fileNotFound "Remote script was not found on target device")) :=
  ⟨by decide, rfl,
   C3_run_background_require_successful_push failTarget "remote_script.sh" "./"
     [Op.append "echo hi", Op.push, Op.run false none] (by decide) rfl false none⟩

/-- Claim C5: if the remote store is consistent — a file reported installed
by the collaborator's `install` exists — then a successful `push` followed
immediately by `run` or `background` never fails the missing-artifact
prerun check: the MissingRemoteArtifact branch is unreachable. -/
theorem C5_push_then_run_never_missing (s : TargetScript)
    (hcons : ∀ p rp, s.target.install p = Except.ok rp →
      s.target.file_exists rp = true)
    (hpush : (s.push).2.2 = none) (ar : Bool) (timeout : Option Nat) :
    ((s.push).1)._prerun_check = none ∧
    (∀ m, (((s.push).1).run ar timeout).2.2 ≠ some (PyError.fileNotFound m)) ∧
    (∀ m, (((s.push).1).background ar).2.2 ≠ some (PyError.fileNotFound m)) := by
  cases hi : s.target.install s.local_path with
  | error e =>
      rw [push_snd_of_error s e hi] at hpush
      exact absurd hpush (by simp)
  | ok rp =>
      have h1 : (s.push).1 = { s with remote_path := rp } := push_fst_of_ok s rp hi
      have hfe : s.target.file_exists rp = true := hcons _ _ hi
      have hpre : ((s.push).1)._prerun_check = none := by
        rw [h1]
        simp [TargetScript._prerun_check, hfe]
      refine ⟨hpre, ?_, ?_⟩
      · intro m hc
        unfold TargetScript.run at hc
        rw [hpre] at hc
        cases he : ((s.push).1).target.execute ((s.push).1).remote_path ar timeout with
        | ok u => rw [he] at hc; simp at hc
        | error e2 => rw [he] at hc; simp at hc
      · intro m hc
        unfold TargetScript.background at hc
        rw [hpre] at hc
        simp at hc

/-- Witness for C5: the well-behaved stub installs to a path that exists,
so after `push` the prerun check passes and neither `run` nor `background`
reports a missing remote artifact. -/
theorem C5_witness :
    stubInit.target.install stubInit.local_path =
      Except.ok "/data/local/tmp/bin/remote_script.sh" ∧
    stubInit.target.file_exists "/data/local/tmp/bin/remote_script.sh" = true ∧
    (stubInit.push).2.2 = none ∧
    ((stubInit.push).1)._prerun_check = none ∧
    (((stubInit.push).1).run false none).2.2 ≠
      some (PyError.fileNotFound "Remote script was not found on target device") ∧
    (((stubInit.push).1).background false).2.2 ≠
      some (PyError.fileNotFound "Remote script was not found on target device") := by
  have H := C5_push_then_run_never_missing stubInit (fun _ _ _ => rfl) rfl false none
  exact ⟨rfl, rfl, rfl, H.1, H.2.1 _, H.2.2 _⟩

/-- Claim C6: on every `TargetScript` on which `background` has never been
called, `wait` and `kill` always fail with the NoBackgroundProcess
`RuntimeError`, regardless of any prior `push` or `run` calls. -/
theorem C6_wait_kill_require_background (t : Target) (name dir : String)
    (ops : List Op) (h : ops.all (fun op => !op.isBackground) = true)
    (ar : Bool) :
    ((runOps (TargetScript.__init__ t name dir) ops).wait).2 =
      some (PyError.runtimeError "No background process currently executing") ∧
    ((runOps (TargetScript.__init__ t name dir) ops).kill ar).2.2 =
      some (PyError.runtimeError "No background process currently executing") := by
  have hp : (runOps (TargetScript.__init__ t name dir) ops)._proc = none :=
    runOps_proc_none _ _ h rfl
  constructor
  · unfold TargetScript.wait
    rw [hp]
  · unfold TargetScript.kill
    rw [hp]

/-- Witness for C6: on the well-behaved stub, after an `append`, a
successful `push` and a successful `run` — but no `background` — both
`wait` and `kill` fail with the NoBackgroundProcess error. -/
theorem C6_witness :
    ([Op.append "echo hi", Op.push, Op.run false none].all
      (fun op => !op.isBackground)) = true ∧
    (((runOps stubInit [Op.append "echo hi", Op.push, Op.run false none]).wait).2 =
      some (PyError.runtimeError "No background process currently executing") ∧
     ((runOps stubInit [Op.append "echo hi", Op.push, Op.run false none]).kill
        false).2.2 =
      some (PyError.runtimeError "No background process currently executing")) :=
  ⟨by decide,
   C6_wait_kill_require_background stubTarget "remote_script.sh" "./"
     [Op.append "echo hi", Op.push, Op.run false none] (by decide) false⟩

/-- Claim C4: reading an attribute whose name is on the fixed allow-list
and that is not a normal field returns the remote target's value for that
name unmodified; reading an unknown name not on the allow-list raises an
attribute-not-found error rather than returning null; and dunder-style
names are never forwarded to the remote target by this proxy. -/
theorem C4_attribute_proxy (s : TargetScript) (normal : String → Option Value)
    (name : String) :
    (normal name = none → TargetScript._target_attrs.contains name = true →
      pyGetattr s normal name = Except.ok (s.target.attr name)) ∧
    (normal name = none → TargetScript._target_attrs.contains name = false →
      pyGetattr s normal name = Except.error ("AttributeError: " ++ name)) ∧
    ((str_startswith name "__" && str_endswith name "__") = true →
      s.__getattr__ name = Except.error ("AttributeError: " ++ name)) := by
  refine ⟨?_, ?_, ?_⟩
  · intro hn hc
    unfold pyGetattr
    rw [hn]
    unfold TargetScript.__getattr__
    rw [target_attrs_not_dunder name hc, hc]
    rfl
  · intro hn hc
    unfold pyGetattr
    rw [hn]
    unfold TargetScript.__getattr__
    rw [hc]
    simp
  · intro hd
    unfold TargetScript.__getattr__
    rw [hd]
    rfl

/-- Witness for C4: on the stub, reading `model` (allow-listed, no normal
field) returns the stub target's value; reading `serial` (not on the
allow-list) raises `AttributeError`; the dunder name `__setstate__` is not
forwarded. -/
theorem C4_witness :
    ((fun _ : String => (none : Option Value)) "model" = none ∧
     TargetScript._target_attrs.contains "model" = true ∧
     pyGetattr stubInit (fun _ => none) "model" =
       Except.ok (stubInit.target.attr "model")) ∧
    ((fun _ : String => (none : Option Value)) "serial" = none ∧
     TargetScript._target_attrs.contains "serial" = false ∧
     pyGetattr stubInit (fun _ => none) "serial" =
       Except.error ("AttributeError: " ++ "serial")) ∧
    ((str_startswith "__setstate__" "__" && str_endswith "__setstate__" "__") = true ∧
     stubInit.__getattr__ "__setstate__" =
       Except.error ("AttributeError: " ++ "__setstate__")) := by
  refine ⟨⟨rfl, by decide, ?_⟩, ⟨rfl, by decide, ?_⟩, ⟨by decide, ?_⟩⟩
  · exact (C4_attribute_proxy stubInit (fun _ => none) "model").1 rfl (by decide)
  · exact (C4_attribute_proxy stubInit (fun _ => none) "serial").2.1 rfl (by decide)
  · exact (C4_attribute_proxy stubInit (fun _ => none) "__setstate__").2.2 (by decide)

end Lisa
